import Mathlib

/-!
# content/displayAction.mjs.js

A shallow embedding of the popup that displays DKIM verification results:
the four custom elements (`key-value`, `value-text`, `value-warnings`,
`dkim-result-extended`), the message helpers `getCurrentTabId`,
`triggerDisplayAction`, `queryResultState`, and the `DOMContentLoaded` handler.

DOM nodes are records holding exactly the attributes, properties and text
contents the source reads or writes; styling is left out.  A call of
`appendChild` on a connected parent runs the `connectedCallback` of the inserted
custom elements, as the DOM does.
-/

namespace DisplayAction

/-! ## JavaScript values -/

/-- A value of type `number|null|undefined`, as taken by `#addOptionalTimeValue`.
Numbers are whole seconds, so a number is falsy exactly when it is zero. -/
inductive TimeValue where
  | undefined : TimeValue
  | null : TimeValue
  | number (n : Int) : TimeValue
deriving DecidableEq, Repr

/-- Truthiness of a `string|undefined` value: `if (value)`. -/
def truthy : Option String → Bool
  | none => false
  | some s => s != ""

/-- String conversion of a `string|undefined` value inside a template literal. -/
def templateString : Option String → String
  | none => "undefined"
  | some s => s

/-- String conversion of the result of `getAttribute` (a string or `null`) inside a
template literal. -/
def attributeString : Option String → String
  | none => "null"
  | some s => s

/-- Outcome of running a function body: it returns, or it throws an `Error`. -/
inductive Completion where
  | normal : Completion
  | thrown (message : String) : Completion
deriving DecidableEq, Repr

/-- Modelled from the spec: the record type `AuthResultDKIM` of
`modules/authVerifier.mjs.js`, which is outside the sources at hand.  The fields are
the ones `DkimResult.connectedCallback` reads; `none` stands for an absent
(`undefined`) field. -/
structure AuthResultDKIM where
  sdid : Option String
  result_str : String
  warnings_str : Option (List String)
  auid : Option String
  algorithmSignature : Option String
  algorithmHash : Option String
  timestamp : TimeValue
  expiration : TimeValue
  signedHeaders : Option (List String)
deriving DecidableEq, Repr

/-! ## The custom elements -/

/-- The element `value-text`: its `value` attribute and the text content of its
private paragraph `#value`. -/
structure ValueTextElement where
  value : Option String
  text : String
deriving DecidableEq, Repr

/-- The body of `new ValueTextElement()`. -/
def ValueTextElement.create : ValueTextElement :=
  { value := none, text := "" }

/-- The method `ValueTextElement.connectedCallback`. -/
def ValueTextElement.connectedCallback (e : ValueTextElement) : ValueTextElement :=
  { e with text := attributeString e.value }

/-- The element `value-warnings`: its `warnings` property and the text contents of
the paragraphs inside its private container `#content`. -/
structure ValueWarningsElement where
  warnings : List String
  content : List String
deriving DecidableEq, Repr

/-- The body of `new ValueWarningsElement()`. -/
def ValueWarningsElement.create : ValueWarningsElement :=
  { warnings := [], content := [] }

/-- The method `ValueWarningsElement.connectedCallback`: the old paragraphs are
dropped by `replaceChildren()`, then one paragraph is appended per warning. -/
def ValueWarningsElement.connectedCallback (e : ValueWarningsElement) :
    ValueWarningsElement :=
  let cleared : List String := []
  { e with content := e.warnings.foldl (fun content warning => content ++ [warning]) cleared }

/-- A child of a `key-value` element. -/
inductive ValueElement where
  | text (e : ValueTextElement) : ValueElement
  | warnings (e : ValueWarningsElement) : ValueElement
deriving DecidableEq, Repr

/-- The connected callback of a value element, whichever its class. -/
def ValueElement.connectedCallback : ValueElement → ValueElement
  | .text e => .text e.connectedCallback
  | .warnings e => .warnings e.connectedCallback

/-- The lines a value element shows. -/
def ValueElement.lines : ValueElement → List String
  | .text e => [e.text]
  | .warnings e => e.content

/-- The element `key-value`: its `key` attribute, the text content of its private
paragraph `#label`, and its children (shown through the slot). -/
structure KeyValueElement where
  key : Option String
  label : String
  children : List ValueElement
deriving DecidableEq, Repr

/-- The body of `new KeyValueElement()`. -/
def KeyValueElement.create : KeyValueElement :=
  { key := none, label := "", children := [] }

/-- The method `KeyValueElement.connectedCallback`. -/
def KeyValueElement.connectedCallback (e : KeyValueElement) : KeyValueElement :=
  { e with label := attributeString e.key ++ ":" }

/-- Insertion of a `key-value` element under a connected parent: the element and
its children become connected, so the callback of each of them runs. -/
def KeyValueElement.connect (e : KeyValueElement) : KeyValueElement :=
  let e := e.connectedCallback
  { e with children := e.children.map ValueElement.connectedCallback }

/-- The lines shown as the value of a row. -/
def KeyValueElement.lines (e : KeyValueElement) : List String :=
  e.children.flatMap ValueElement.lines

/-- The element `dkim-result-extended`: its `result` property and the children of
its private container `#content`. -/
structure DkimResult where
  result : Option AuthResultDKIM
  content : List KeyValueElement
deriving DecidableEq, Repr

/-- The body of `new DkimResult()`. -/
def DkimResult.create : DkimResult :=
  { result := none, content := [] }

/-- The static method `DkimResult.#addTextValue`; the parent is connected. -/
def DkimResult.addTextValue (parent : List KeyValueElement) (key value : String) :
    List KeyValueElement :=
  let valueElement := { ValueTextElement.create with value := some value }
  let element := { KeyValueElement.create with key := some key }
  let element := { element with children := element.children ++ [ValueElement.text valueElement] }
  parent ++ [element.connect]

/-- The static method `DkimResult.#addOptionalTextValue`. -/
def DkimResult.addOptionalTextValue (parent : List KeyValueElement) (key : String)
    (value : Option String) : List KeyValueElement :=
  if truthy value then DkimResult.addTextValue parent key (templateString value) else parent

/-- The static method `DkimResult.#addOptionalTimeValue`.  The parameter
`dateToString` stands for `ms ↦ new Date(ms).toString()`. -/
def DkimResult.addOptionalTimeValue (dateToString : Int → String)
    (parent : List KeyValueElement) (key : String) (value : TimeValue) :
    List KeyValueElement :=
  match value with
  | .number n =>
    if n ≠ 0 then DkimResult.addTextValue parent key (dateToString (n * 1000)) else parent
  | .null => DkimResult.addTextValue parent key "None"
  | .undefined => parent

/-- The static method `DkimResult.#addOptionalWarnings`. -/
def DkimResult.addOptionalWarnings (parent : List KeyValueElement) (key : String)
    (warnings : Option (List String)) : List KeyValueElement :=
  match warnings with
  | none => parent
  | some ws =>
    if ws.length = 0 then parent
    else
      let valueElement := { ValueWarningsElement.create with warnings := ws }
      let element := { KeyValueElement.create with key := some key }
      let element :=
        { element with children := element.children ++ [ValueElement.warnings valueElement] }
      parent ++ [element.connect]

/-- The method `DkimResult.connectedCallback`: the completion and the element
afterwards. -/
def DkimResult.connectedCallback (dateToString : Int → String) (d : DkimResult) :
    Completion × DkimResult :=
  match d.result with
  | none => (.thrown "A DkimResult musst have a result bevor it can be connected.", d)
  | some result =>
    let content := DkimResult.addTextValue d.content "SDID" (result.sdid.getD "Unknown")
    let content := DkimResult.addTextValue content "Result" result.result_str
    let content := DkimResult.addOptionalWarnings content "Warnings" result.warnings_str
    let content := DkimResult.addOptionalTextValue content "AUID" result.auid
    let algorithm : Option String :=
      if truthy result.algorithmSignature && truthy result.algorithmHash then
        some (templateString result.algorithmSignature ++ "-"
          ++ templateString result.algorithmHash)
      else none
    let content := DkimResult.addOptionalTextValue content "Algorithm" algorithm
    let content :=
      DkimResult.addOptionalTimeValue dateToString content "Sign date" result.timestamp
    let content :=
      DkimResult.addOptionalTimeValue dateToString content "Expiration date" result.expiration
    let content := DkimResult.addOptionalTextValue content "Signed headers"
      (result.signedHeaders.map (String.intercalate ", "))
    (.normal, { d with content := content })

/-- The rows in the container of a freshly constructed component after its `result`
has been assigned and it has been attached once. -/
def DkimResult.render (dateToString : Int → String) (result : AuthResultDKIM) :
    List KeyValueElement :=
  (DkimResult.connectedCallback dateToString
    { DkimResult.create with result := some result }).2.content

/-- The keys of a sequence of rows. -/
def keys (rows : List KeyValueElement) : List (Option String) :=
  rows.map KeyValueElement.key

/-- The rows of a sequence that carry the given key. -/
def rowsFor (key : String) (rows : List KeyValueElement) : List KeyValueElement :=
  rows.filter (fun e => e.key = some key)

/-- The order in which `connectedCallback` emits the fields. -/
def fieldOrder : List String :=
  ["SDID", "Result", "Warnings", "AUID", "Algorithm", "Sign date", "Expiration date",
    "Signed headers"]

/-! ## Messages to the background page -/

/-- A tab as returned by `browser.tabs.query`; the identifier is optional. -/
structure Tab where
  id : Option Int
deriving DecidableEq, Repr

/-- The field `parameters` of a display action message. -/
structure Parameters where
  tabId : Int
deriving DecidableEq, Repr

/-- Modelled from the spec: the message type
`RuntimeMessage.DisplayAction.DisplayActionMessage` of `RuntimeMessage.d.ts`, which
is outside the sources at hand; the fields are those of the object literals the
source builds. -/
structure DisplayActionMessage where
  module : String
  method : String
  parameters : Parameters
deriving DecidableEq, Repr

/-- Modelled from the spec: the reply type
`RuntimeMessage.DisplayAction.queryResultStateResult` of `RuntimeMessage.d.ts`, which
is outside the sources at hand; the fields are the ones the handler reads. -/
structure QueryResultStateResult where
  dkim : List AuthResultDKIM
  reverifyDKIMSignature : Bool
  policyAddUserException : Bool
  markKeyAsSecure : Bool
  updateKey : Bool
deriving DecidableEq, Repr

/-- An observable action of the popup on its surroundings. -/
inductive Effect where
  | sendMessage (message : DisplayActionMessage) : Effect
  | windowClose : Effect
deriving DecidableEq, Repr

/-- The surroundings of the popup: how the promise of `browser.tabs.query` for the
active tab of the current window settles, how the promise returned by
`browser.runtime.sendMessage` settles for each message, and the effects so far,
oldest first. -/
structure Browser where
  activeTabs : Except String (List Tab)
  reply : DisplayActionMessage → Except String QueryResultStateResult
  effects : List Effect

/-- The call `browser.runtime.sendMessage(message)`: the message is sent, and the
settlement of the returned promise is handed back. -/
def Browser.sendMessage (b : Browser) (message : DisplayActionMessage) :
    Except String QueryResultStateResult × Browser :=
  (b.reply message, { b with effects := b.effects ++ [Effect.sendMessage message] })

/-- The call `window.close()`. -/
def Browser.windowClose (b : Browser) : Browser :=
  { b with effects := b.effects ++ [Effect.windowClose] }

/-- The function `getCurrentTabId`. -/
def getCurrentTabId (b : Browser) : Except String Int :=
  match b.activeTabs with
  | .error e => .error e
  | .ok tab =>
    match tab.head?.bind Tab.id with
    | none => .error "active tab has no id"
    | some tabId => .ok tabId

/-- The function `triggerDisplayAction`: the completion and the surroundings
afterwards.  The promise returned by `sendMessage` is dropped. -/
def triggerDisplayAction (action : String) (b : Browser) : Completion × Browser :=
  match getCurrentTabId b with
  | .error e => (.thrown e, b)
  | .ok tabId =>
    let message : DisplayActionMessage :=
      { module := "DisplayAction", method := action, parameters := { tabId := tabId } }
    let b := (b.sendMessage message).2
    let b := b.windowClose
    (.normal, b)

/-- The function `queryResultState`: the settlement of the promise it returns and
the surroundings afterwards. -/
def queryResultState (b : Browser) : Except String QueryResultStateResult × Browser :=
  match getCurrentTabId b with
  | .error e => (.error e, b)
  | .ok tabId =>
    let message : DisplayActionMessage :=
      { module := "DisplayAction", method := "queryResultState",
        parameters := { tabId := tabId } }
    b.sendMessage message

/-! ## The page -/

/-- An element of the popup page that carries an `id`: whether it is an
`HTMLButtonElement`, its `disabled` property, the actions its click listeners pass
to `triggerDisplayAction`, and the result components appended to it. -/
structure Element where
  isButton : Bool
  disabled : Bool
  clickListeners : List String
  children : List DkimResult
deriving DecidableEq, Repr

/-- The page: the element of each `id`, if there is one. -/
abbrev Document := String → Option Element

/-- The page after the element with the given `id` has been mutated. -/
def Document.set (doc : Document) (id : String) (e : Element) : Document :=
  fun i => if i = id then some e else doc i

/-- Modelled from the spec: the helper `getElementById` of `domUtils.mjs.js`, which
is outside the sources at hand.  A missing element aborts with a thrown error. -/
def getElementById (doc : Document) (id : String) : Except String Element :=
  match doc id with
  | none => .error ("Could not find element with id " ++ id)
  | some e => .ok e

/-- The popup: its surroundings and its page. -/
structure Popup where
  browser : Browser
  document : Document

/-- One of the four blocks of the handler that bind a button; they differ only in
the identifier, which is also the action of the click listener and the name of the
flag read from the reply. -/
def bindButton (doc : Document) (id : String) (flag : Bool) : Except String Document :=
  match getElementById doc id with
  | .error e => .error e
  | .ok button =>
    if !button.isButton then .error (id ++ " element is not a button")
    else
      let button := { button with clickListeners := button.clickListeners ++ [id] }
      let button := if flag then { button with disabled := false } else button
      .ok (doc.set id button)

/-- The loop of the handler over `resultState.dkim`: each result gets a new
component, which is appended to the connected element `results` and thereby
attached. -/
def appendResults (dateToString : Int → String) (results : Element)
    (dkim : List AuthResultDKIM) : Element :=
  dkim.foldl
    (fun results res =>
      let resElement := { DkimResult.create with result := some res }
      { results with
        children := results.children ++ [(resElement.connectedCallback dateToString).2] })
    results

/-- The listener of `DOMContentLoaded`: the popup afterwards, or the error thrown. -/
def onDOMContentLoaded (dateToString : Int → String) (p : Popup) : Except String Popup :=
  match queryResultState p.browser with
  | (.error e, _) => .error e
  | (.ok resultState, browser) =>
    match getElementById p.document "results" with
    | .error e => .error e
    | .ok results =>
      let doc := p.document.set "results" (appendResults dateToString results resultState.dkim)
      match bindButton doc "reverifyDKIMSignature" resultState.reverifyDKIMSignature with
      | .error e => .error e
      | .ok doc =>
        match bindButton doc "policyAddUserException" resultState.policyAddUserException with
        | .error e => .error e
        | .ok doc =>
          match bindButton doc "markKeyAsSecure" resultState.markKeyAsSecure with
          | .error e => .error e
          | .ok doc =>
            match bindButton doc "updateKey" resultState.updateKey with
            | .error e => .error e
            | .ok doc => .ok { browser := browser, document := doc }

/-- Whether the element with the given `id` is an enabled button. -/
def enabled (doc : Document) (id : String) : Bool :=
  match doc id with
  | some e => e.isButton && !e.disabled
  | none => false

/-- Whether the element with the given `id` is a disabled button. -/
def disabledButton (doc : Document) (id : String) : Bool :=
  match doc id with
  | some e => e.isButton && e.disabled
  | none => false

/-! ## Sample inputs -/

/-- A result that carries only the two required fields. -/
def minimalResult : AuthResultDKIM :=
  { sdid := some "example.com", result_str := "SUCCESS", warnings_str := none, auid := none,
    algorithmSignature := none, algorithmHash := none, timestamp := .undefined,
    expiration := .undefined, signedHeaders := none }

/-- A result whose signature algorithm is present but is the empty string. -/
def emptySignatureResult : AuthResultDKIM :=
  { minimalResult with algorithmSignature := some "", algorithmHash := some "sha256" }

/-- A stand-in for the date formatting, which shows the instant as a number. -/
def sampleDateToString (ms : Int) : String :=
  toString ms

/-- Surroundings with one active tab, whose identifier is 7, and a background page
that is gone, so that every reply promise rejects. -/
def sampleBrowser : Browser :=
  { activeTabs := .ok [{ id := some 7 }],
    reply := fun _ => .error "Actor Conduits destroyed before query RuntimeMessage was resolved",
    effects := [] }

/-- A disabled button without listeners. -/
def disabledButtonElement : Element :=
  { isButton := true, disabled := true, clickListeners := [], children := [] }

/-- The page of the popup before the handler runs: the anchor `results` and the four
buttons, all disabled. -/
def samplePage : Document := fun id =>
  if id = "results" then
    some { isButton := false, disabled := false, clickListeners := [], children := [] }
  else if id = "reverifyDKIMSignature" then some disabledButtonElement
  else if id = "policyAddUserException" then some disabledButtonElement
  else if id = "markKeyAsSecure" then some disabledButtonElement
  else if id = "updateKey" then some disabledButtonElement
  else none

/-- A reply that permits only the policy exception and carries no result. -/
def sampleReply : QueryResultStateResult :=
  { dkim := [], reverifyDKIMSignature := false, policyAddUserException := true,
    markKeyAsSecure := false, updateKey := false }

/-- A popup whose background page answers every message with `sampleReply`. -/
def samplePopup : Popup :=
  { browser := { activeTabs := .ok [{ id := some 7 }], reply := fun _ => .ok sampleReply,
                 effects := [] },
    document := samplePage }

/-! ## Shape of the rows -/

theorem addTextValue_append (parent : List KeyValueElement) (key value : String) :
    DkimResult.addTextValue parent key value
      = parent ++ DkimResult.addTextValue [] key value := by
  simp [DkimResult.addTextValue]

theorem addOptionalTextValue_append (parent : List KeyValueElement) (key : String)
    (value : Option String) :
    DkimResult.addOptionalTextValue parent key value
      = parent ++ DkimResult.addOptionalTextValue [] key value := by
  unfold DkimResult.addOptionalTextValue
  split
  · exact addTextValue_append parent key _
  · simp

theorem addOptionalTimeValue_append (dateToString : Int → String)
    (parent : List KeyValueElement) (key : String) (value : TimeValue) :
    DkimResult.addOptionalTimeValue dateToString parent key value
      = parent ++ DkimResult.addOptionalTimeValue dateToString [] key value := by
  unfold DkimResult.addOptionalTimeValue
  cases value with
  | undefined => simp
  | null => exact addTextValue_append parent key _
  | number n =>
    by_cases h : n = 0
    · simp [h]
    · simpa [h] using addTextValue_append parent key _

theorem addOptionalWarnings_append (parent : List KeyValueElement) (key : String)
    (warnings : Option (List String)) :
    DkimResult.addOptionalWarnings parent key warnings
      = parent ++ DkimResult.addOptionalWarnings [] key warnings := by
  unfold DkimResult.addOptionalWarnings
  cases warnings with
  | none => simp
  | some ws => by_cases h : ws.length = 0 <;> simp [h]

theorem foldl_append_singleton (ws acc : List String) :
    ws.foldl (fun content warning => content ++ [warning]) acc = acc ++ ws := by
  induction ws generalizing acc with
  | nil => simp
  | cons w ws ih => simp [ih]

theorem addTextValue_nil (key value : String) :
    DkimResult.addTextValue [] key value
      = [{ key := some key, label := key ++ ":",
           children := [ValueElement.text { value := some value, text := value }] }] := by
  rfl

theorem addOptionalWarnings_nil_some (key : String) (ws : List String) (h : ws ≠ []) :
    DkimResult.addOptionalWarnings [] key (some ws)
      = [{ key := some key, label := key ++ ":",
           children := [ValueElement.warnings { warnings := ws, content := ws }] }] := by
  have hl : ws.length ≠ 0 := by
    intro h0
    exact h (List.length_eq_zero.mp h0)
  simp [DkimResult.addOptionalWarnings, hl, KeyValueElement.connect,
    KeyValueElement.connectedCallback, KeyValueElement.create, ValueWarningsElement.create,
    ValueElement.connectedCallback, ValueWarningsElement.connectedCallback,
    foldl_append_singleton, attributeString]

/-- The rows one attachment appends, field by field. -/
theorem connectedCallback_content (dateToString : Int → String) (content : List KeyValueElement)
    (r : AuthResultDKIM) :
    (DkimResult.connectedCallback dateToString { result := some r, content := content }).2.content
      = content ++ (DkimResult.addTextValue [] "SDID" (r.sdid.getD "Unknown")
        ++ (DkimResult.addTextValue [] "Result" r.result_str
        ++ (DkimResult.addOptionalWarnings [] "Warnings" r.warnings_str
        ++ (DkimResult.addOptionalTextValue [] "AUID" r.auid
        ++ (DkimResult.addOptionalTextValue [] "Algorithm"
              (if truthy r.algorithmSignature && truthy r.algorithmHash then
                some (templateString r.algorithmSignature ++ "-"
                  ++ templateString r.algorithmHash)
              else none)
        ++ (DkimResult.addOptionalTimeValue dateToString [] "Sign date" r.timestamp
        ++ (DkimResult.addOptionalTimeValue dateToString [] "Expiration date" r.expiration
        ++ DkimResult.addOptionalTextValue [] "Signed headers"
              (r.signedHeaders.map (String.intercalate ", "))))))))) := by
  simp only [DkimResult.connectedCallback]
  rw [addOptionalTextValue_append, addOptionalTimeValue_append, addOptionalTimeValue_append,
    addOptionalTextValue_append, addOptionalTextValue_append, addOptionalWarnings_append,
    addTextValue_append _ "Result", addTextValue_append _ "SDID"]
  simp only [List.append_assoc]

theorem render_eq (dateToString : Int → String) (r : AuthResultDKIM) :
    DkimResult.render dateToString r
      = DkimResult.addTextValue [] "SDID" (r.sdid.getD "Unknown")
        ++ (DkimResult.addTextValue [] "Result" r.result_str
        ++ (DkimResult.addOptionalWarnings [] "Warnings" r.warnings_str
        ++ (DkimResult.addOptionalTextValue [] "AUID" r.auid
        ++ (DkimResult.addOptionalTextValue [] "Algorithm"
              (if truthy r.algorithmSignature && truthy r.algorithmHash then
                some (templateString r.algorithmSignature ++ "-"
                  ++ templateString r.algorithmHash)
              else none)
        ++ (DkimResult.addOptionalTimeValue dateToString [] "Sign date" r.timestamp
        ++ (DkimResult.addOptionalTimeValue dateToString [] "Expiration date" r.expiration
        ++ DkimResult.addOptionalTextValue [] "Signed headers"
              (r.signedHeaders.map (String.intercalate ", ")))))))) := by
  have h := connectedCallback_content dateToString [] r
  simpa [DkimResult.render, DkimResult.create] using h

/-! ## Rows by key -/

theorem rowsFor_append (key : String) (a b : List KeyValueElement) :
    rowsFor key (a ++ b) = rowsFor key a ++ rowsFor key b := by
  simp [rowsFor]

theorem rowsFor_of_key (key other : String) (rows : List KeyValueElement)
    (h : ∀ e ∈ rows, e.key = some key) :
    rowsFor other rows = if key = other then rows else [] := by
  unfold rowsFor
  split
  · next hk =>
    subst hk
    exact List.filter_eq_self.mpr (fun e he => by simp [h e he])
  · next hk =>
    refine List.filter_eq_nil_iff.mpr (fun e he => ?_)
    simp [h e he, hk]

theorem key_addTextValue (key value : String) :
    ∀ e ∈ DkimResult.addTextValue [] key value, e.key = some key := by
  intro e he
  rw [addTextValue_nil] at he
  simp at he
  simp [he]

theorem key_addOptionalTextValue (key : String) (value : Option String) :
    ∀ e ∈ DkimResult.addOptionalTextValue [] key value, e.key = some key := by
  intro e he
  unfold DkimResult.addOptionalTextValue at he
  split at he
  · exact key_addTextValue key _ e he
  · simp at he

theorem key_addOptionalTimeValue (dateToString : Int → String) (key : String)
    (value : TimeValue) :
    ∀ e ∈ DkimResult.addOptionalTimeValue dateToString [] key value, e.key = some key := by
  intro e he
  unfold DkimResult.addOptionalTimeValue at he
  cases value with
  | undefined => simp at he
  | null => exact key_addTextValue key _ e he
  | number n =>
    by_cases h : n = 0
    · simp [h] at he
    · simp only [ne_eq, h, not_false_eq_true, if_true] at he
      exact key_addTextValue key _ e he

theorem key_addOptionalWarnings (key : String) (warnings : Option (List String)) :
    ∀ e ∈ DkimResult.addOptionalWarnings [] key warnings, e.key = some key := by
  intro e he
  cases warnings with
  | none => simp [DkimResult.addOptionalWarnings] at he
  | some ws =>
    by_cases h : ws = []
    · simp [DkimResult.addOptionalWarnings, h] at he
    · rw [addOptionalWarnings_nil_some key ws h] at he
      simp at he
      simp [he]

theorem rowsFor_addTextValue (other key value : String) :
    rowsFor other (DkimResult.addTextValue [] key value)
      = if key = other then DkimResult.addTextValue [] key value else [] :=
  rowsFor_of_key key other _ (key_addTextValue key value)

theorem rowsFor_addOptionalTextValue (other key : String) (value : Option String) :
    rowsFor other (DkimResult.addOptionalTextValue [] key value)
      = if key = other then DkimResult.addOptionalTextValue [] key value else [] :=
  rowsFor_of_key key other _ (key_addOptionalTextValue key value)

theorem rowsFor_addOptionalTimeValue (dateToString : Int → String) (other key : String)
    (value : TimeValue) :
    rowsFor other (DkimResult.addOptionalTimeValue dateToString [] key value)
      = if key = other then DkimResult.addOptionalTimeValue dateToString [] key value
        else [] :=
  rowsFor_of_key key other _ (key_addOptionalTimeValue dateToString key value)

theorem rowsFor_addOptionalWarnings (other key : String) (warnings : Option (List String)) :
    rowsFor other (DkimResult.addOptionalWarnings [] key warnings)
      = if key = other then DkimResult.addOptionalWarnings [] key warnings else [] :=
  rowsFor_of_key key other _ (key_addOptionalWarnings key warnings)

theorem rowsFor_expiration (dateToString : Int → String) (r : AuthResultDKIM) :
    rowsFor "Expiration date" (DkimResult.render dateToString r)
      = DkimResult.addOptionalTimeValue dateToString [] "Expiration date" r.expiration := by
  rw [render_eq]
  simp [rowsFor_append, rowsFor_addTextValue, rowsFor_addOptionalTextValue,
    rowsFor_addOptionalTimeValue, rowsFor_addOptionalWarnings]

theorem rowsFor_signDate (dateToString : Int → String) (r : AuthResultDKIM) :
    rowsFor "Sign date" (DkimResult.render dateToString r)
      = DkimResult.addOptionalTimeValue dateToString [] "Sign date" r.timestamp := by
  rw [render_eq]
  simp [rowsFor_append, rowsFor_addTextValue, rowsFor_addOptionalTextValue,
    rowsFor_addOptionalTimeValue, rowsFor_addOptionalWarnings]

theorem rowsFor_warnings (dateToString : Int → String) (r : AuthResultDKIM) :
    rowsFor "Warnings" (DkimResult.render dateToString r)
      = DkimResult.addOptionalWarnings [] "Warnings" r.warnings_str := by
  rw [render_eq]
  simp [rowsFor_append, rowsFor_addTextValue, rowsFor_addOptionalTextValue,
    rowsFor_addOptionalTimeValue, rowsFor_addOptionalWarnings]

theorem rowsFor_algorithm (dateToString : Int → String) (r : AuthResultDKIM) :
    rowsFor "Algorithm" (DkimResult.render dateToString r)
      = DkimResult.addOptionalTextValue [] "Algorithm"
          (if truthy r.algorithmSignature && truthy r.algorithmHash then
            some (templateString r.algorithmSignature ++ "-"
              ++ templateString r.algorithmHash)
          else none) := by
  rw [render_eq]
  simp [rowsFor_append, rowsFor_addTextValue, rowsFor_addOptionalTextValue,
    rowsFor_addOptionalTimeValue, rowsFor_addOptionalWarnings]

/-! ## At most one row per field -/

theorem keys_append (a b : List KeyValueElement) : keys (a ++ b) = keys a ++ keys b := by
  simp [keys]

theorem keys_sublist_singleton (rows : List KeyValueElement) (key : String)
    (h : rows = [] ∨ ∃ e, rows = [e] ∧ e.key = some key) :
    (keys rows).Sublist [some key] := by
  rcases h with h | ⟨e, h, hk⟩
  · subst h
    simp [keys]
  · subst h
    simp [keys, hk]

theorem addTextValue_shape (key value : String) :
    DkimResult.addTextValue [] key value = []
      ∨ ∃ e, DkimResult.addTextValue [] key value = [e] ∧ e.key = some key :=
  Or.inr ⟨_, addTextValue_nil key value, rfl⟩

theorem addOptionalTextValue_shape (key : String) (value : Option String) :
    DkimResult.addOptionalTextValue [] key value = []
      ∨ ∃ e, DkimResult.addOptionalTextValue [] key value = [e] ∧ e.key = some key := by
  unfold DkimResult.addOptionalTextValue
  split
  · exact addTextValue_shape key _
  · exact Or.inl rfl

theorem addOptionalTimeValue_shape (dateToString : Int → String) (key : String)
    (value : TimeValue) :
    DkimResult.addOptionalTimeValue dateToString [] key value = []
      ∨ ∃ e, DkimResult.addOptionalTimeValue dateToString [] key value = [e]
          ∧ e.key = some key := by
  unfold DkimResult.addOptionalTimeValue
  cases value with
  | undefined => exact Or.inl rfl
  | null => exact addTextValue_shape key _
  | number n =>
    by_cases h : n = 0
    · simp [h]
    · simp only [ne_eq, h, not_false_eq_true, if_true]
      exact addTextValue_shape key _

theorem addOptionalWarnings_shape (key : String) (warnings : Option (List String)) :
    DkimResult.addOptionalWarnings [] key warnings = []
      ∨ ∃ e, DkimResult.addOptionalWarnings [] key warnings = [e] ∧ e.key = some key := by
  cases warnings with
  | none => exact Or.inl rfl
  | some ws =>
    by_cases h : ws = []
    · subst h
      exact Or.inl rfl
    · exact Or.inr ⟨_, addOptionalWarnings_nil_some key ws h, rfl⟩

theorem keys_render_sublist (dateToString : Int → String) (r : AuthResultDKIM) :
    (keys (DkimResult.render dateToString r)).Sublist (fieldOrder.map some) := by
  rw [render_eq]
  simp only [keys_append]
  have e : fieldOrder.map some
      = [some "SDID"] ++ ([some "Result"] ++ ([some "Warnings"] ++ ([some "AUID"]
        ++ ([some "Algorithm"] ++ ([some "Sign date"] ++ ([some "Expiration date"]
        ++ [some "Signed headers"])))))) := rfl
  rw [e]
  refine List.Sublist.append (keys_sublist_singleton _ _ (addTextValue_shape _ _)) ?_
  refine List.Sublist.append (keys_sublist_singleton _ _ (addTextValue_shape _ _)) ?_
  refine List.Sublist.append (keys_sublist_singleton _ _ (addOptionalWarnings_shape _ _)) ?_
  refine List.Sublist.append (keys_sublist_singleton _ _ (addOptionalTextValue_shape _ _)) ?_
  refine List.Sublist.append (keys_sublist_singleton _ _ (addOptionalTextValue_shape _ _)) ?_
  refine List.Sublist.append
    (keys_sublist_singleton _ _ (addOptionalTimeValue_shape _ _ _)) ?_
  refine List.Sublist.append
    (keys_sublist_singleton _ _ (addOptionalTimeValue_shape _ _ _)) ?_
  exact keys_sublist_singleton _ _ (addOptionalTextValue_shape _ _)

theorem fieldOrder_nodup : (fieldOrder.map some).Nodup := by
  decide

theorem render_first_two (dateToString : Int → String) (r : AuthResultDKIM) :
    ((DkimResult.render dateToString r).map (fun e => (e.key, e.lines))).take 2
      = [(some "SDID", [r.sdid.getD "Unknown"]), (some "Result", [r.result_str])] := by
  rw [render_eq, addTextValue_nil, addTextValue_nil]
  simp [KeyValueElement.lines, ValueElement.lines]

/-- A second attachment appends the rows once more behind the ones already there. -/
theorem connectedCallback_again (dateToString : Int → String) (content : List KeyValueElement)
    (r : AuthResultDKIM) :
    (DkimResult.connectedCallback dateToString
        (DkimResult.connectedCallback dateToString
          { result := some r, content := content }).2).2.content
      = (content ++ DkimResult.render dateToString r) ++ DkimResult.render dateToString r := by
  have h1 := connectedCallback_content dateToString content r
  have e : (DkimResult.connectedCallback dateToString { result := some r, content := content }).2
      = { result := some r, content := content ++ DkimResult.render dateToString r } := by
    rw [render_eq, ← h1]
    rfl
  rw [e, connectedCallback_content, ← render_eq]

theorem hyphenated_ne_empty (s h : String) : s ++ "-" ++ h ≠ "" := by
  intro h0
  have hl := congrArg String.length h0
  have h1 : "-".length = 1 := by decide
  simp [String.length_append, h1] at hl

/-! ## The claims on the result component -/

/-- C1 (the code departs from it): for the component holding `minimalResult`, one
attachment fills the empty container with the two rows SDID and Result, and a second
attachment leaves four rows, SDID, Result, SDID, Result; the rows of the first
attachment are not discarded, so the container differs from the one after a single
attachment. -/
theorem connectedCallback_twice_duplicates_rows :
    keys (DkimResult.connectedCallback sampleDateToString
        { DkimResult.create with result := some minimalResult }).2.content
      = [some "SDID", some "Result"]
    ∧ keys (DkimResult.connectedCallback sampleDateToString
        (DkimResult.connectedCallback sampleDateToString
          { DkimResult.create with result := some minimalResult }).2).2.content
      = [some "SDID", some "Result", some "SDID", some "Result"]
    ∧ (DkimResult.connectedCallback sampleDateToString
        (DkimResult.connectedCallback sampleDateToString
          { DkimResult.create with result := some minimalResult }).2).2.content
      ≠ (DkimResult.connectedCallback sampleDateToString
        { DkimResult.create with result := some minimalResult }).2.content := by
  decide

/-- C2: with no result assigned `connectedCallback` throws its error and leaves the
component, and so its content container, as it was; with a result assigned it
completes normally, whatever the result and the container hold. -/
theorem connectedCallback_requires_result (dateToString : Int → String)
    (content : List KeyValueElement) :
    DkimResult.connectedCallback dateToString { result := none, content := content }
      = (Completion.thrown "A DkimResult musst have a result bevor it can be connected.",
          { result := none, content := content })
    ∧ ∀ r : AuthResultDKIM,
        (DkimResult.connectedCallback dateToString { result := some r, content := content }).1
          = Completion.normal := by
  constructor
  · rfl
  · intro r
    rfl

/-- C3: the keys of the rows one attachment appends to an empty container form a
sublist of SDID, Result, Warnings, AUID, Algorithm, Sign date, Expiration date,
Signed headers in that order, no key occurs twice, the first row is SDID showing
`sdid` or else "Unknown", the second row is Result showing `result_str`, and a result
without `sdid` shows "Unknown". -/
theorem render_keys_in_fieldOrder (dateToString : Int → String) (r : AuthResultDKIM) :
    (keys (DkimResult.render dateToString r)).Sublist (fieldOrder.map some)
    ∧ (keys (DkimResult.render dateToString r)).Nodup
    ∧ ((DkimResult.render dateToString r).map (fun e => (e.key, e.lines))).take 2
        = [(some "SDID", [r.sdid.getD "Unknown"]), (some "Result", [r.result_str])]
    ∧ ((DkimResult.render dateToString { r with sdid := none }).map
          (fun e => (e.key, e.lines))).head?
        = some (some "SDID", ["Unknown"]) := by
  refine ⟨keys_render_sublist dateToString r,
    (keys_render_sublist dateToString r).nodup fieldOrder_nodup,
    render_first_two dateToString r, ?_⟩
  have h := render_first_two dateToString { r with sdid := none }
  have h2 := congrArg List.head? h
  simpa [List.head?_take] using h2

/-- C4: whatever the other fields hold, a result whose `expiration` is `null` gets
exactly one row "Expiration date", and a result whose `timestamp` is `null` gets
exactly one row "Sign date"; in both the value shown is "None". -/
theorem render_null_time_shows_None (dateToString : Int → String) (r : AuthResultDKIM) :
    (∃ e, rowsFor "Expiration date"
            (DkimResult.render dateToString { r with expiration := TimeValue.null }) = [e]
        ∧ e.lines = ["None"])
    ∧ (∃ e, rowsFor "Sign date"
            (DkimResult.render dateToString { r with timestamp := TimeValue.null }) = [e]
        ∧ e.lines = ["None"]) := by
  constructor
  · rw [rowsFor_expiration]
    exact ⟨_, rfl, rfl⟩
  · rw [rowsFor_signDate]
    exact ⟨_, rfl, rfl⟩

/-- C5: a result whose `expiration` is absent, or the number zero, gets no row
"Expiration date" (so no "None" row either), and `addOptionalTimeValue` hands back
the parent container unchanged for both values. -/
theorem render_absent_or_zero_expiration (dateToString : Int → String)
    (r : AuthResultDKIM) :
    rowsFor "Expiration date"
        (DkimResult.render dateToString { r with expiration := TimeValue.undefined }) = []
    ∧ rowsFor "Expiration date"
        (DkimResult.render dateToString { r with expiration := TimeValue.number 0 }) = []
    ∧ (∀ (parent : List KeyValueElement) (key : String),
        DkimResult.addOptionalTimeValue dateToString parent key TimeValue.undefined = parent
        ∧ DkimResult.addOptionalTimeValue dateToString parent key (TimeValue.number 0)
            = parent) := by
  refine ⟨?_, ?_, ?_⟩
  · rw [rowsFor_expiration]
    rfl
  · rw [rowsFor_expiration]
    rfl
  · intro parent key
    exact ⟨rfl, rfl⟩

/-- C6: a result whose `expiration` is a positive whole number `n` gets exactly one
row "Expiration date", and the value shown is the date formatting applied to
`n * 1000`. -/
theorem render_positive_expiration (dateToString : Int → String) (r : AuthResultDKIM)
    (n : Int) (h : 0 < n) :
    ∃ e, rowsFor "Expiration date"
          (DkimResult.render dateToString { r with expiration := TimeValue.number n }) = [e]
      ∧ e.lines = [dateToString (n * 1000)] := by
  rw [rowsFor_expiration]
  have hn : n ≠ 0 := by omega
  have e : DkimResult.addOptionalTimeValue dateToString [] "Expiration date"
        (TimeValue.number n)
      = DkimResult.addTextValue [] "Expiration date" (dateToString (n * 1000)) := by
    simp [DkimResult.addOptionalTimeValue, hn]
  exact ⟨_, e.trans (addTextValue_nil _ _), rfl⟩

theorem render_positive_expiration_witness :
    (0 : Int) < 1700000000
    ∧ ∃ e, rowsFor "Expiration date"
          (DkimResult.render sampleDateToString
            { minimalResult with expiration := TimeValue.number 1700000000 }) = [e]
      ∧ e.lines = [sampleDateToString (1700000000 * 1000)] :=
  ⟨by decide, render_positive_expiration sampleDateToString minimalResult 1700000000
    (by decide)⟩

/-- C7: a result whose warnings are absent or empty gets no row "Warnings"; a result
with at least one warning gets exactly one row "Warnings", whose lines are the
warnings themselves, one line each, in the order given, none dropped and none
merged. -/
theorem render_warnings (dateToString : Int → String) (r : AuthResultDKIM) :
    rowsFor "Warnings" (DkimResult.render dateToString { r with warnings_str := none }) = []
    ∧ rowsFor "Warnings"
        (DkimResult.render dateToString { r with warnings_str := some [] }) = []
    ∧ (∀ ws : List String, 1 ≤ ws.length →
        ∃ e, rowsFor "Warnings"
              (DkimResult.render dateToString { r with warnings_str := some ws }) = [e]
          ∧ e.lines = ws
          ∧ e.lines.length = ws.length
          ∧ ∀ i : Nat, e.lines[i]? = ws[i]?) := by
  refine ⟨?_, ?_, ?_⟩
  · rw [rowsFor_warnings]
    rfl
  · rw [rowsFor_warnings]
    rfl
  · intro ws hws
    rw [rowsFor_warnings]
    have hne : ws ≠ [] := by
      intro h0
      subst h0
      simp at hws
    refine ⟨_, addOptionalWarnings_nil_some "Warnings" ws hne, ?_, ?_, ?_⟩ <;>
      simp [KeyValueElement.lines, ValueElement.lines]

theorem render_warnings_witness :
    ∃ e, rowsFor "Warnings"
          (DkimResult.render sampleDateToString
            { minimalResult with warnings_str := some ["b", "a", "b"] }) = [e]
      ∧ e.lines = ["b", "a", "b"]
      ∧ e.lines.length = ["b", "a", "b"].length
      ∧ ∀ i : Nat, e.lines[i]? = ["b", "a", "b"][i]? :=
  (render_warnings sampleDateToString minimalResult).2.2 ["b", "a", "b"] (by decide)

/-- C8 (as stated, refuted): in `emptySignatureResult` both `algorithmSignature` (the
empty string) and `algorithmHash` ("sha256") are present, yet the result gets no row
"Algorithm", so the row does not appear exactly when both fields are present. -/
theorem render_algorithm_empty_signature :
    emptySignatureResult.algorithmSignature.isSome = true
    ∧ emptySignatureResult.algorithmHash.isSome = true
    ∧ rowsFor "Algorithm" (DkimResult.render sampleDateToString emptySignatureResult) = []
    ∧ ¬ (rowsFor "Algorithm" (DkimResult.render sampleDateToString emptySignatureResult) ≠ []
          ↔ emptySignatureResult.algorithmSignature.isSome = true
              ∧ emptySignatureResult.algorithmHash.isSome = true) := by
  decide

/-- C8 (amended): a result gets a row "Algorithm" if and only if `algorithmSignature`
and `algorithmHash` are both present and both non-empty; there is then exactly one
such row and it shows the signature, a hyphen and the hash. -/
theorem render_algorithm (dateToString : Int → String) (r : AuthResultDKIM) :
    (rowsFor "Algorithm" (DkimResult.render dateToString r) ≠ []
      ↔ ∃ s h, r.algorithmSignature = some s ∧ r.algorithmHash = some h
          ∧ s ≠ "" ∧ h ≠ "")
    ∧ (∀ s h, r.algorithmSignature = some s → r.algorithmHash = some h → s ≠ "" → h ≠ "" →
        ∃ e, rowsFor "Algorithm" (DkimResult.render dateToString r) = [e]
          ∧ e.lines = [s ++ "-" ++ h]) := by
  rw [rowsFor_algorithm]
  constructor
  · cases hs : r.algorithmSignature with
    | none => simp [truthy, DkimResult.addOptionalTextValue]
    | some s =>
      cases hh : r.algorithmHash with
      | none => simp [truthy, DkimResult.addOptionalTextValue]
      | some h =>
        by_cases h1 : s = ""
        · simp [truthy, DkimResult.addOptionalTextValue, h1]
        · by_cases h2 : h = ""
          · simp [truthy, DkimResult.addOptionalTextValue, h2]
          · simp [truthy, DkimResult.addOptionalTextValue, h1, h2, templateString,
              addTextValue_nil, hyphenated_ne_empty s h]
  · intro s h hs hh h1 h2
    have hne : (s ++ "-" ++ h) ≠ "" := hyphenated_ne_empty s h
    simp [hs, hh, truthy, DkimResult.addOptionalTextValue, h1, h2, templateString,
      addTextValue_nil, hne, KeyValueElement.lines, ValueElement.lines]

theorem render_algorithm_witness :
    ∃ e, rowsFor "Algorithm"
          (DkimResult.render sampleDateToString
            { minimalResult with algorithmSignature := some "rsa",
                                 algorithmHash := some "sha256" }) = [e]
      ∧ e.lines = ["rsa" ++ "-" ++ "sha256"] :=
  (render_algorithm sampleDateToString
    { minimalResult with algorithmSignature := some "rsa", algorithmHash := some "sha256" }).2
    "rsa" "sha256" rfl rfl (by decide) (by decide)

/-! ## The claims on the popup -/

theorem bindButton_disabled (doc : Document) (id : String) (flag : Bool)
    (h : disabledButton doc id = true) :
    ∃ e, bindButton doc id flag = .ok (doc.set id e) ∧ e.isButton = true
      ∧ e.disabled = !flag := by
  unfold disabledButton at h
  cases hd : doc id with
  | none => simp [hd] at h
  | some b =>
    simp [hd] at h
    refine ⟨{ isButton := true, disabled := !flag,
              clickListeners := b.clickListeners ++ [id], children := b.children }, ?_, rfl, rfl⟩
    cases flag <;>
      simp [bindButton, getElementById, hd, h.1, h.2]

theorem disabledButton_set_ne (doc : Document) (id other : String) (e : Element)
    (h : other ≠ id) : disabledButton (doc.set id e) other = disabledButton doc other := by
  simp [disabledButton, Document.set, h]

theorem enabled_set_ne (doc : Document) (id other : String) (e : Element)
    (h : other ≠ id) : enabled (doc.set id e) other = enabled doc other := by
  simp [enabled, Document.set, h]

theorem enabled_set_self (doc : Document) (id : String) (e : Element)
    (h1 : e.isButton = true) (flag : Bool) (h2 : e.disabled = !flag) :
    enabled (doc.set id e) id = flag := by
  simp [enabled, Document.set, h1, h2]

/-- C9: when the active tab resolves, the background page answers the query with the
reply `r`, the page has the anchor `results` and the four buttons, and the four
buttons are disabled, the handler completes, and afterwards each of the four buttons
is enabled exactly when the flag of its name in `r` is true. -/
theorem onDOMContentLoaded_enables_buttons (dateToString : Int → String) (p : Popup)
    (t : Int) (r : QueryResultStateResult) (results : Element)
    (ht : getCurrentTabId p.browser = .ok t)
    (hr : p.browser.reply
        { module := "DisplayAction", method := "queryResultState",
          parameters := { tabId := t } } = .ok r)
    (hres : p.document "results" = some results)
    (h1 : disabledButton p.document "reverifyDKIMSignature" = true)
    (h2 : disabledButton p.document "policyAddUserException" = true)
    (h3 : disabledButton p.document "markKeyAsSecure" = true)
    (h4 : disabledButton p.document "updateKey" = true) :
    ∃ q, onDOMContentLoaded dateToString p = .ok q
      ∧ enabled q.document "reverifyDKIMSignature" = r.reverifyDKIMSignature
      ∧ enabled q.document "policyAddUserException" = r.policyAddUserException
      ∧ enabled q.document "markKeyAsSecure" = r.markKeyAsSecure
      ∧ enabled q.document "updateKey" = r.updateKey := by
  have hq : queryResultState p.browser
      = (.ok r, { p.browser with effects := p.browser.effects ++ [Effect.sendMessage
          { module := "DisplayAction", method := "queryResultState",
            parameters := { tabId := t } }] }) := by
    simp [queryResultState, ht, Browser.sendMessage, hr]
  have hg : getElementById p.document "results" = .ok results := by
    simp [getElementById, hres]
  obtain ⟨e1, hb1, i1, d1⟩ := bindButton_disabled
    (p.document.set "results" (appendResults dateToString results r.dkim))
    "reverifyDKIMSignature" r.reverifyDKIMSignature
    (by rw [disabledButton_set_ne _ _ _ _ (by decide)]; exact h1)
  obtain ⟨e2, hb2, i2, d2⟩ := bindButton_disabled
    (((p.document.set "results" (appendResults dateToString results r.dkim)).set
      "reverifyDKIMSignature" e1))
    "policyAddUserException" r.policyAddUserException
    (by rw [disabledButton_set_ne _ _ _ _ (by decide),
          disabledButton_set_ne _ _ _ _ (by decide)]; exact h2)
  obtain ⟨e3, hb3, i3, d3⟩ := bindButton_disabled
    ((((p.document.set "results" (appendResults dateToString results r.dkim)).set
      "reverifyDKIMSignature" e1).set "policyAddUserException" e2))
    "markKeyAsSecure" r.markKeyAsSecure
    (by rw [disabledButton_set_ne _ _ _ _ (by decide),
          disabledButton_set_ne _ _ _ _ (by decide),
          disabledButton_set_ne _ _ _ _ (by decide)]; exact h3)
  obtain ⟨e4, hb4, i4, d4⟩ := bindButton_disabled
    (((((p.document.set "results" (appendResults dateToString results r.dkim)).set
      "reverifyDKIMSignature" e1).set "policyAddUserException" e2).set "markKeyAsSecure" e3))
    "updateKey" r.updateKey
    (by rw [disabledButton_set_ne _ _ _ _ (by decide),
          disabledButton_set_ne _ _ _ _ (by decide),
          disabledButton_set_ne _ _ _ _ (by decide),
          disabledButton_set_ne _ _ _ _ (by decide)]; exact h4)
  have hrun : onDOMContentLoaded dateToString p
      = .ok { browser := { p.browser with effects := p.browser.effects ++ [Effect.sendMessage
                { module := "DisplayAction", method := "queryResultState",
                  parameters := { tabId := t } }] },
              document := (((((p.document.set "results"
                (appendResults dateToString results r.dkim)).set
                "reverifyDKIMSignature" e1).set "policyAddUserException" e2).set
                "markKeyAsSecure" e3).set "updateKey" e4) } := by
    simp only [onDOMContentLoaded, hq, hg, hb1, hb2, hb3, hb4]
  refine ⟨_, hrun, ?_, ?_, ?_, ?_⟩
  · rw [enabled_set_ne _ _ _ _ (by decide), enabled_set_ne _ _ _ _ (by decide),
      enabled_set_ne _ _ _ _ (by decide)]
    exact enabled_set_self _ _ _ i1 _ d1
  · rw [enabled_set_ne _ _ _ _ (by decide), enabled_set_ne _ _ _ _ (by decide)]
    exact enabled_set_self _ _ _ i2 _ d2
  · rw [enabled_set_ne _ _ _ _ (by decide)]
    exact enabled_set_self _ _ _ i3 _ d3
  · exact enabled_set_self _ _ _ i4 _ d4

theorem onDOMContentLoaded_enables_buttons_witness :
    ∃ q, onDOMContentLoaded sampleDateToString samplePopup = .ok q
      ∧ enabled q.document "reverifyDKIMSignature" = false
      ∧ enabled q.document "policyAddUserException" = true
      ∧ enabled q.document "markKeyAsSecure" = false
      ∧ enabled q.document "updateKey" = false :=
  onDOMContentLoaded_enables_buttons sampleDateToString samplePopup 7 sampleReply
    { isButton := false, disabled := false, clickListeners := [], children := [] }
    rfl rfl rfl (by decide) (by decide) (by decide) (by decide)

/-- C10: when the active tab resolves to `t`, one run of `triggerDisplayAction a`
completes normally and adds exactly two effects to the ones before: the sending of
the one message with module "DisplayAction", method `a` and tab identifier `t`, and
then the closing of the window; this is so however the promise of the send settles. -/
theorem triggerDisplayAction_sends_once (action : String) (b : Browser) (t : Int)
    (h : getCurrentTabId b = .ok t)
    (reply : DisplayActionMessage → Except String QueryResultStateResult) :
    triggerDisplayAction action { b with reply := reply }
      = (Completion.normal,
          { b with
            reply := reply
            effects := b.effects ++
              [Effect.sendMessage
                { module := "DisplayAction", method := action,
                  parameters := { tabId := t } },
               Effect.windowClose] }) := by
  have h2 : getCurrentTabId { b with reply := reply } = .ok t := h
  simp [triggerDisplayAction, h2, Browser.sendMessage, Browser.windowClose]

theorem triggerDisplayAction_sends_once_witness :
    getCurrentTabId sampleBrowser = .ok 7
    ∧ triggerDisplayAction "markKeyAsSecure"
        { sampleBrowser with reply := fun _ => .ok sampleReply }
      = (Completion.normal,
          { sampleBrowser with
            reply := fun _ => .ok sampleReply
            effects := sampleBrowser.effects ++
              [Effect.sendMessage
                { module := "DisplayAction", method := "markKeyAsSecure",
                  parameters := { tabId := 7 } },
               Effect.windowClose] }) :=
  ⟨rfl, triggerDisplayAction_sends_once "markKeyAsSecure" sampleBrowser 7 rfl
    (fun _ => .ok sampleReply)⟩

end DisplayAction

